import Mathlib

/-!
Verification of the fitness calculator toolset (`agent.py`).

The six tool functions are shallowly embedded over exact rationals (`ℚ`
stands in for Python floats; all arithmetic in the source is exact on the
inputs the claims quantify over) and the Python dicts they return are
embedded as ordered association lists of string keys and a small value
type.  `round x 2` is Python's `round`, i.e. rounding half to even, and
`.lower()` is per-character ASCII lowering.  The only exception a function
body can raise on typed inputs is the `ZeroDivisionError` in
`calculate_bmi` when `height == 0`; the `try/except` wrapper that converts
it into an error dict is embedded as the explicit zero test below.
-/

/-- Python `round(x)` to an integer: round half to even (banker's rounding). -/
def roundHalfEven (x : ℚ) : ℤ :=
  let f : ℤ := ⌊x⌋
  let r : ℚ := x - (f : ℚ)
  if r < 1/2 then f
  else if 1/2 < r then f + 1
  else if f % 2 = 0 then f else f + 1

/-- Python `round(x, 2)`: round to two decimal places, half to even. -/
def round2 (x : ℚ) : ℚ := (roundHalfEven (100 * x) : ℚ) / 100

/-- Python `str.lower()` restricted to ASCII, applied per character. -/
def strLower (s : String) : String := ⟨s.data.map Char.toLower⟩

/-- Decimal rendering of a two-decimal rational, as Python prints such a
float (`176.0`, `22.86`, `55.56`); only used inside `message` strings. -/
def decStr (x : ℚ) : String :=
  let n : ℕ := (100 * x).num.natAbs
  let sign : String := if x < 0 then "-" else ""
  let frac : ℕ := n % 100
  sign ++ toString (n / 100) ++ "." ++
    (if frac % 10 = 0 then toString (frac / 10)
     else if frac < 10 then "0" ++ toString frac
     else toString frac)

/-- A value stored in one of the returned dicts: a string, a number, a
Python `int`, a list of strings, or the nested numeric dict used by
`calculate_macronutrients`. -/
inductive Val where
  | str (s : String)
  | num (q : ℚ)
  | int (i : ℤ)
  | strList (l : List String)
  | numDict (d : List (String × ℚ))
deriving DecidableEq

/-- A returned Python dict: an ordered association list of keys and values. -/
abbrev Dict := List (String × Val)

/-- `calculate_bmi(weight, height)` from `agent.py`: BMI from weight (kg)
and height (cm), with the division-by-zero exception at `height == 0`
converted to an error dict by the surrounding `try/except`. -/
def calculate_bmi (weight height : ℚ) : Dict :=
  let height_m := height / 100
  if height_m ^ 2 = 0 then
    [ ("status", Val.str "error"),
      ("error_message", Val.str "float division by zero")]
  else
    let bmi := weight / height_m ^ 2
    let category :=
      if bmi < 18.5 then "Underweight"
      else if bmi < 24.9 then "Normal weight"
      else if bmi < 29.9 then "Overweight"
      else "Obese"
    [ ("status", Val.str "success"),
      ("bmi", Val.num (round2 bmi)),
      ("category", Val.str category),
      ("message", Val.str
        ("Your BMI is " ++ decStr (round2 bmi) ++ " (" ++ category ++ ")."))]

/-- The tip list `fitness_tips` returns for a lowered goal of `"loss"`. -/
def loss_tips : List String :=
  [ "Incorporate cardio workouts like running or cycling.",
    "Maintain a calorie deficit.",
    "Eat more protein and fiber.",
    "Avoid sugary drinks."]

/-- The tip list `fitness_tips` returns for a lowered goal of `"gain"`. -/
def gain_tips : List String :=
  [ "Include strength training in your routine.",
    "Increase your caloric intake with healthy foods.",
    "Consume more protein and carbs.",
    "Ensure adequate rest for muscle recovery."]

/-- `fitness_tips(goal)` from `agent.py`: lowercases the goal and returns
the fixed tips for `"loss"` or `"gain"`, an error dict otherwise. -/
def fitness_tips (goal : String) : Dict :=
  let goal := strLower goal
  if goal = "loss" then
    [ ("status", Val.str "success"),
      ("goal", Val.str goal),
      ("tips", Val.strList loss_tips)]
  else if goal = "gain" then
    [ ("status", Val.str "success"),
      ("goal", Val.str goal),
      ("tips", Val.strList gain_tips)]
  else
    [ ("status", Val.str "error"),
      ("error_message", Val.str
        ("Goal '" ++ goal ++ "' is not recognized. Use 'loss' or 'gain'."))]

/-- `calculate_maintenance_calories(weight)` from `agent.py`: pounds as
`weight * 2.2`, maintenance calories as `pounds * 14`. -/
def calculate_maintenance_calories (weight : ℚ) : Dict :=
  let weight_lbs := weight * 2.2
  let maintenance_calories := weight_lbs * 14
  [ ("status", Val.str "success"),
    ("weight_kg", Val.num weight),
    ("weight_lbs", Val.num (round2 weight_lbs)),
    ("maintenance_calories", Val.num (round2 maintenance_calories)),
    ("message", Val.str
      ("Estimated maintenance calories: " ++
        decStr (round2 maintenance_calories) ++ " kcal/day."))]

/-- `calculate_macronutrients(calories, goal)` from `agent.py`: fixed
35/25/40 calorie split, grams via 4 kcal/g for protein and carbs and
9 kcal/g for fat; goals other than loss/gain/maintain are rejected. -/
def calculate_macronutrients (calories : ℚ) (goal : String) : Dict :=
  let goal := strLower goal
  if (["loss", "gain", "maintain"].contains goal) = false then
    [ ("status", Val.str "error"),
      ("error_message", Val.str
        ("Goal '" ++ goal ++ "' is invalid. Use 'loss', 'gain', or 'maintain'."))]
  else
    let protein_ratio : ℚ := 0.35
    let fat_ratio : ℚ := 0.25
    let carbs_ratio : ℚ := 0.40
    let protein_cals := calories * protein_ratio
    let fat_cals := calories * fat_ratio
    let carbs_cals := calories * carbs_ratio
    let protein_grams := protein_cals / 4
    let fat_grams := fat_cals / 9
    let carbs_grams := carbs_cals / 4
    [ ("status", Val.str "success"),
      ("goal", Val.str goal),
      ("calories", Val.int (roundHalfEven calories)),
      ("macronutrients", Val.numDict
        [ ("protein_grams", round2 protein_grams),
          ("fat_grams", round2 fat_grams),
          ("carbs_grams", round2 carbs_grams)]),
      ("message", Val.str
        ("For a " ++ goal ++ " goal and " ++ toString (roundHalfEven calories) ++
          " kcal/day:\n- Protein: " ++ decStr (round2 protein_grams) ++
          "g\n- Fat: " ++ decStr (round2 fat_grams) ++
          "g\n- Carbs: " ++ decStr (round2 carbs_grams) ++ "g"))]

/-- The recommendation list `calculate_weight_loss_plan` returns. -/
def loss_recommendations : List String :=
  [ "Track your food intake and stay in a calorie deficit.",
    "Do cardio exercises like brisk walking, running, or cycling daily.",
    "Stay hydrated and get enough sleep.",
    "Avoid sugary drinks and processed snacks."]

/-- `calculate_weight_loss_plan(target_weight_loss)` from `agent.py`:
rejects targets outside `[0.5, 1]`, otherwise the daily deficit is
`target * 7700 / 7`. -/
def calculate_weight_loss_plan (target_weight_loss : ℚ) : Dict :=
  let CALORIES_PER_KG : ℚ := 7700
  let days : ℚ := 7
  if target_weight_loss < 0.5 ∨ target_weight_loss > 1 then
    [ ("status", Val.str "error"),
      ("error_message", Val.str
        "Only 0.5 kg to 1 kg per week is recommended for healthy weight loss.")]
  else
    let total_deficit := target_weight_loss * CALORIES_PER_KG
    let daily_deficit := total_deficit / days
    [ ("status", Val.str "success"),
      ("target_weight_loss_kg", Val.num target_weight_loss),
      ("daily_calorie_deficit", Val.num (round2 daily_deficit)),
      ("message", Val.str
        ("To lose " ++ decStr target_weight_loss ++
          " kg per week, aim for a daily calorie deficit of " ++
          toString (roundHalfEven daily_deficit) ++
          " kcal. This can be achieved through a combination of diet " ++
          "(eating fewer calories) and exercise (e.g., 30–60 minutes of cardio).")),
      ("recommendations", Val.strList loss_recommendations)]

/-- The recommendation list `calculate_weight_gain_plan` returns. -/
def gain_recommendations : List String :=
  [ "Eat 3 large meals and 2–3 snacks each day.",
    "Include protein-rich foods: eggs, meat, legumes, dairy.",
    "Strength train 3–5 times a week (compound lifts are best).",
    "Add healthy fats (nuts, seeds, olive oil) to meals.",
    "Track progress weekly to adjust intake."]

/-- `calculate_weight_gain_plan(target_weight_gain)` from `agent.py`:
rejects targets outside `[0.25, 0.5]`, otherwise the daily surplus is
`target * 7700 / 7`. -/
def calculate_weight_gain_plan (target_weight_gain : ℚ) : Dict :=
  let CALORIES_PER_KG : ℚ := 7700
  let days : ℚ := 7
  if target_weight_gain < 0.25 ∨ target_weight_gain > 0.5 then
    [ ("status", Val.str "error"),
      ("error_message", Val.str
        "Only 0.25 kg to 0.5 kg per week is recommended for healthy weight gain.")]
  else
    let total_surplus := target_weight_gain * CALORIES_PER_KG
    let daily_surplus := total_surplus / days
    [ ("status", Val.str "success"),
      ("target_weight_gain_kg", Val.num target_weight_gain),
      ("daily_calorie_surplus", Val.num (round2 daily_surplus)),
      ("message", Val.str
        ("To gain " ++ decStr target_weight_gain ++
          " kg per week, aim for a daily calorie surplus of " ++
          toString (roundHalfEven daily_surplus) ++
          " kcal. Focus on strength training and consuming calorie-dense, " ++
          "nutritious foods.")),
      ("recommendations", Val.strList gain_recommendations)]

/-- A result dict carries a status of `"success"` or `"error"`. -/
def status_ok (d : Dict) : Prop :=
  d.lookup "status" = some (Val.str "success") ∨
  d.lookup "status" = some (Val.str "error")

/-- An error result carries an `error_message` string. -/
def error_has_msg (d : Dict) : Prop :=
  d.lookup "status" = some (Val.str "error") →
    ∃ s, d.lookup "error_message" = some (Val.str s)

/-- A success result carries a human-readable `message` string. -/
def success_has_msg (d : Dict) : Prop :=
  d.lookup "status" = some (Val.str "success") →
    ∃ s, d.lookup "message" = some (Val.str s)

theorem lookup_head (a : String) (v : Val) (l : Dict) :
    List.lookup a ((a, v) :: l) = some v := by
  simp [List.lookup]

theorem lookup_rest (a k : String) (h : ¬ a = k) (v : Val) (l : Dict) :
    List.lookup a ((k, v) :: l) = List.lookup a l := by
  simp [List.lookup, beq_false_of_ne h]

/-- Every `calculate_bmi` result is either the error dict or a success dict
with `bmi`, `category` and `message` fields. -/
theorem bmi_shape (w h : ℚ) :
    (∃ e, calculate_bmi w h =
      [ ("status", Val.str "error"), ("error_message", Val.str e)]) ∨
    (∃ q c m, calculate_bmi w h =
      [ ("status", Val.str "success"), ("bmi", Val.num q),
        ("category", Val.str c), ("message", Val.str m)]) := by
  simp only [calculate_bmi]
  split
  · exact Or.inl ⟨_, rfl⟩
  · exact Or.inr ⟨_, _, _, rfl⟩

/-- Every `fitness_tips` result is a success dict with `goal` and `tips`
fields (and no `message`), or the error dict. -/
theorem fitness_tips_shape (g : String) :
    (∃ gl tips, fitness_tips g =
      [ ("status", Val.str "success"), ("goal", Val.str gl),
        ("tips", Val.strList tips)]) ∨
    (∃ e, fitness_tips g =
      [ ("status", Val.str "error"), ("error_message", Val.str e)]) := by
  simp only [fitness_tips]
  split
  · exact Or.inl ⟨_, _, rfl⟩
  split
  · exact Or.inl ⟨_, _, rfl⟩
  · exact Or.inr ⟨_, rfl⟩

/-- Every `calculate_macronutrients` result is the error dict or a success
dict with `goal`, `calories`, `macronutrients` and `message` fields. -/
theorem macronutrients_shape (c : ℚ) (g : String) :
    (∃ e, calculate_macronutrients c g =
      [ ("status", Val.str "error"), ("error_message", Val.str e)]) ∨
    (∃ gl i d m, calculate_macronutrients c g =
      [ ("status", Val.str "success"), ("goal", Val.str gl),
        ("calories", Val.int i), ("macronutrients", Val.numDict d),
        ("message", Val.str m)]) := by
  simp only [calculate_macronutrients]
  split
  · exact Or.inl ⟨_, rfl⟩
  · exact Or.inr ⟨_, _, _, _, rfl⟩

/-- Every `calculate_weight_loss_plan` result is the error dict or a
success dict with target, deficit, `message` and `recommendations`. -/
theorem weight_loss_plan_shape (t : ℚ) :
    (∃ e, calculate_weight_loss_plan t =
      [ ("status", Val.str "error"), ("error_message", Val.str e)]) ∨
    (∃ q d m r, calculate_weight_loss_plan t =
      [ ("status", Val.str "success"), ("target_weight_loss_kg", Val.num q),
        ("daily_calorie_deficit", Val.num d), ("message", Val.str m),
        ("recommendations", Val.strList r)]) := by
  simp only [calculate_weight_loss_plan]
  split
  · exact Or.inl ⟨_, rfl⟩
  · exact Or.inr ⟨_, _, _, _, rfl⟩

/-- Every `calculate_weight_gain_plan` result is the error dict or a
success dict with target, surplus, `message` and `recommendations`. -/
theorem weight_gain_plan_shape (t : ℚ) :
    (∃ e, calculate_weight_gain_plan t =
      [ ("status", Val.str "error"), ("error_message", Val.str e)]) ∨
    (∃ q d m r, calculate_weight_gain_plan t =
      [ ("status", Val.str "success"), ("target_weight_gain_kg", Val.num q),
        ("daily_calorie_surplus", Val.num d), ("message", Val.str m),
        ("recommendations", Val.strList r)]) := by
  simp only [calculate_weight_gain_plan]
  split
  · exact Or.inl ⟨_, rfl⟩
  · exact Or.inr ⟨_, _, _, _, rfl⟩

/-- On all valid goals, `calculate_macronutrients` succeeds with the fixed
35/25/40 split converted to grams. -/
theorem macronutrients_valid_success (c : ℚ) (g : String)
    (hg : strLower g = "loss" ∨ strLower g = "gain" ∨ strLower g = "maintain") :
    (calculate_macronutrients c g).lookup "status" = some (Val.str "success") ∧
    (calculate_macronutrients c g).lookup "macronutrients" = some (Val.numDict
      [ ("protein_grams", round2 (c * 0.35 / 4)),
        ("fat_grams", round2 (c * 0.25 / 9)),
        ("carbs_grams", round2 (c * 0.40 / 4))]) := by
  have hc : (["loss", "gain", "maintain"].contains (strLower g)) = true := by
    rcases hg with h | h | h <;> simp [h]
  simp only [calculate_macronutrients, hc]
  refine ⟨?_, ?_⟩ <;> simp +decide [lookup_head, lookup_rest]

/-- C1: for positive weight and height, `calculate_bmi` succeeds, its `bmi`
field is `weight / (height/100)^2` rounded to two decimals, and its
`category` field follows the 18.5 / 24.9 / 29.9 thresholds in order. -/
theorem bmi_formula_and_category (w h : ℚ) (hw : 0 < w) (hh : 0 < h) :
    (calculate_bmi w h).lookup "status" = some (Val.str "success") ∧
    (calculate_bmi w h).lookup "bmi" =
      some (Val.num (round2 (w / (h / 100) ^ 2))) ∧
    (calculate_bmi w h).lookup "category" = some (Val.str
      (if w / (h / 100) ^ 2 < 18.5 then "Underweight"
       else if w / (h / 100) ^ 2 < 24.9 then "Normal weight"
       else if w / (h / 100) ^ 2 < 29.9 then "Overweight"
       else "Obese")) := by
  have hne : ((h / 100 : ℚ)) ^ 2 ≠ 0 :=
    pow_ne_zero _ (div_ne_zero (ne_of_gt hh) (by norm_num))
  simp only [calculate_bmi, if_neg hne]
  refine ⟨?_, ?_, ?_⟩ <;> simp +decide [lookup_head, lookup_rest]

/-- C1 witness: weight 70 kg and height 175 cm give BMI 22.86, category
"Normal weight". -/
theorem bmi_formula_and_category_witness :
    (calculate_bmi 70 175).lookup "status" = some (Val.str "success") ∧
    (calculate_bmi 70 175).lookup "bmi" = some (Val.num 22.86) ∧
    (calculate_bmi 70 175).lookup "category" = some (Val.str "Normal weight") := by
  have h := bmi_formula_and_category 70 175 (by norm_num) (by norm_num)
  refine ⟨h.1, ?_, ?_⟩
  · rw [h.2.1]
    norm_num [round2, roundHalfEven]
  · rw [h.2.2]
    norm_num

/-- C2 counterexample: height -175 is non-positive, yet `calculate_bmi`
returns a success result, not an error. -/
theorem bmi_nonpositive_not_rejected_cex :
    ((-175 : ℚ) ≤ 0) ∧
    (calculate_bmi 70 (-175)).lookup "status" = some (Val.str "success") := by
  constructor
  · norm_num
  · have hne : ((((-175 : ℚ)) / 100) ^ 2) ≠ 0 := by norm_num
    simp only [calculate_bmi, if_neg hne]
    simp +decide [lookup_head, lookup_rest]

/-- C2 amended: `calculate_bmi` validates nothing; it returns an error
result exactly when height = 0 (the division fails there), and a success
result for every other input, non-positive weight and negative height
included. -/
theorem bmi_error_iff_height_zero (w h : ℚ) :
    (calculate_bmi w h).lookup "status" =
      some (Val.str (if h = 0 then "error" else "success")) ∧
    (calculate_bmi w h).lookup "error_message" =
      (if h = 0 then some (Val.str "float division by zero") else none) := by
  by_cases hz : h = 0
  · subst hz
    have hc : (((0 : ℚ) / 100) ^ 2) = 0 := by norm_num
    simp only [calculate_bmi, if_pos hc]
    refine ⟨?_, ?_⟩ <;> simp +decide [lookup_head, lookup_rest]
  · have hne : ((h / 100 : ℚ)) ^ 2 ≠ 0 :=
      pow_ne_zero _ (div_ne_zero hz (by norm_num))
    simp only [calculate_bmi, if_neg hne, if_neg hz]
    refine ⟨?_, ?_⟩ <;> simp +decide [List.lookup, lookup_head, lookup_rest]

/-- C3: for every calorie total and valid goal (case-insensitive loss,
gain or maintain) `calculate_macronutrients` succeeds with the fixed
35/25/40 split in grams, independent of the goal; any other goal yields
an error result. -/
theorem macronutrients_split_spec (c : ℚ) (g : String) :
    (strLower g = "loss" ∨ strLower g = "gain" ∨ strLower g = "maintain" →
      (calculate_macronutrients c g).lookup "status" = some (Val.str "success") ∧
      (calculate_macronutrients c g).lookup "macronutrients" = some (Val.numDict
        [ ("protein_grams", round2 (c * 0.35 / 4)),
          ("fat_grams", round2 (c * 0.25 / 9)),
          ("carbs_grams", round2 (c * 0.40 / 4))])) ∧
    (¬ (strLower g = "loss" ∨ strLower g = "gain" ∨ strLower g = "maintain") →
      (calculate_macronutrients c g).lookup "status" = some (Val.str "error") ∧
      (calculate_macronutrients c g).lookup "error_message" = some (Val.str
        ("Goal '" ++ strLower g ++ "' is invalid. Use 'loss', 'gain', or 'maintain'."))) := by
  constructor
  · exact macronutrients_valid_success c g
  · intro hg
    have hc : (["loss", "gain", "maintain"].contains (strLower g)) = false := by
      push_neg at hg
      simp [hg.1, hg.2.1, hg.2.2]
    simp only [calculate_macronutrients, hc]
    refine ⟨?_, ?_⟩ <;> simp +decide [lookup_head, lookup_rest]

/-- C3 witness: 2000 kcal with goal "gain" gives 175.0 g protein, 55.56 g
fat and 200.0 g carbs. -/
theorem macronutrients_split_instance :
    (calculate_macronutrients 2000 "gain").lookup "status" =
      some (Val.str "success") ∧
    (calculate_macronutrients 2000 "gain").lookup "macronutrients" =
      some (Val.numDict
        [ ("protein_grams", 175), ("fat_grams", 55.56), ("carbs_grams", 200)]) ∧
    (calculate_macronutrients 2000 "keto").lookup "status" =
      some (Val.str "error") := by
  have h1 := (macronutrients_split_spec 2000 "gain").1 (Or.inr (Or.inl (by decide)))
  have h2 := (macronutrients_split_spec 2000 "keto").2 (by decide)
  refine ⟨h1.1, ?_, h2.1⟩
  rw [h1.2]
  norm_num [round2, roundHalfEven]

/-- C4: `calculate_weight_loss_plan` succeeds on targets in [0.5, 1] with
a daily deficit of `target * 7700 / 7` rounded to two decimals and the
fixed four recommendations, and rejects targets outside the range. -/
theorem weight_loss_plan_spec (t : ℚ) :
    (0.5 ≤ t → t ≤ 1 →
      (calculate_weight_loss_plan t).lookup "status" = some (Val.str "success") ∧
      (calculate_weight_loss_plan t).lookup "daily_calorie_deficit" =
        some (Val.num (round2 (t * 7700 / 7))) ∧
      (calculate_weight_loss_plan t).lookup "recommendations" =
        some (Val.strList loss_recommendations) ∧
      loss_recommendations.length = 4) ∧
    (t < 0.5 ∨ 1 < t →
      (calculate_weight_loss_plan t).lookup "status" = some (Val.str "error") ∧
      (calculate_weight_loss_plan t).lookup "error_message" = some (Val.str
        "Only 0.5 kg to 1 kg per week is recommended for healthy weight loss.")) := by
  constructor
  · intro h1 h2
    have hcond : ¬ (t < 0.5 ∨ t > 1) := by
      push_neg
      exact ⟨h1, h2⟩
    simp only [calculate_weight_loss_plan, if_neg hcond]
    refine ⟨?_, ?_, ?_, by decide⟩ <;> simp +decide [lookup_head, lookup_rest]
  · intro h
    have hcond : (t < 0.5 ∨ t > 1) := h
    simp only [calculate_weight_loss_plan, if_pos hcond]
    refine ⟨?_, ?_⟩ <;> simp +decide [lookup_head, lookup_rest]

/-- C4 witness: target 0.7 gives a daily deficit of 770.0 kcal; target
0.4 is rejected. -/
theorem weight_loss_plan_instance :
    (calculate_weight_loss_plan 0.7).lookup "daily_calorie_deficit" =
      some (Val.num 770) ∧
    (calculate_weight_loss_plan 0.4).lookup "status" = some (Val.str "error") := by
  have h1 := (weight_loss_plan_spec 0.7).1 (by norm_num) (by norm_num)
  have h2 := (weight_loss_plan_spec 0.4).2 (Or.inl (by norm_num))
  refine ⟨?_, h2.1⟩
  rw [h1.2.1]
  norm_num [round2, roundHalfEven]

/-- C5: `calculate_weight_gain_plan` succeeds on targets in [0.25, 0.5]
with a daily surplus of `target * 7700 / 7` rounded to two decimals and
the fixed five recommendations, and rejects targets outside the range. -/
theorem weight_gain_plan_spec (t : ℚ) :
    (0.25 ≤ t → t ≤ 0.5 →
      (calculate_weight_gain_plan t).lookup "status" = some (Val.str "success") ∧
      (calculate_weight_gain_plan t).lookup "daily_calorie_surplus" =
        some (Val.num (round2 (t * 7700 / 7))) ∧
      (calculate_weight_gain_plan t).lookup "recommendations" =
        some (Val.strList gain_recommendations) ∧
      gain_recommendations.length = 5) ∧
    (t < 0.25 ∨ 0.5 < t →
      (calculate_weight_gain_plan t).lookup "status" = some (Val.str "error") ∧
      (calculate_weight_gain_plan t).lookup "error_message" = some (Val.str
        "Only 0.25 kg to 0.5 kg per week is recommended for healthy weight gain.")) := by
  constructor
  · intro h1 h2
    have hcond : ¬ (t < 0.25 ∨ t > 0.5) := by
      push_neg
      exact ⟨h1, h2⟩
    simp only [calculate_weight_gain_plan, if_neg hcond]
    refine ⟨?_, ?_, ?_, by decide⟩ <;> simp +decide [lookup_head, lookup_rest]
  · intro h
    have hcond : (t < 0.25 ∨ t > 0.5) := h
    simp only [calculate_weight_gain_plan, if_pos hcond]
    refine ⟨?_, ?_⟩ <;> simp +decide [lookup_head, lookup_rest]

/-- C5 witness: target 0.3 gives a daily surplus of 330.0 kcal; target
0.6 is rejected. -/
theorem weight_gain_plan_instance :
    (calculate_weight_gain_plan 0.3).lookup "daily_calorie_surplus" =
      some (Val.num 330) ∧
    (calculate_weight_gain_plan 0.6).lookup "status" = some (Val.str "error") := by
  have h1 := (weight_gain_plan_spec 0.3).1 (by norm_num) (by norm_num)
  have h2 := (weight_gain_plan_spec 0.6).2 (Or.inr (by norm_num))
  refine ⟨?_, h2.1⟩
  rw [h1.2.1]
  norm_num [round2, roundHalfEven]

/-- C6: for every weight, `calculate_maintenance_calories` succeeds with
`weight_lbs = round(weight * 2.2, 2)` and
`maintenance_calories = round(weight * 2.2 * 14, 2)`. -/
theorem maintenance_calories_spec (w : ℚ) :
    (calculate_maintenance_calories w).lookup "status" =
      some (Val.str "success") ∧
    (calculate_maintenance_calories w).lookup "weight_lbs" =
      some (Val.num (round2 (w * 2.2))) ∧
    (calculate_maintenance_calories w).lookup "maintenance_calories" =
      some (Val.num (round2 (w * 2.2 * 14))) := by
  refine ⟨?_, ?_, ?_⟩ <;>
    simp +decide [calculate_maintenance_calories, lookup_head, lookup_rest]

/-- C6 witness: weight 80 kg gives 176.0 lbs and 2464.0 maintenance
calories. -/
theorem maintenance_calories_instance :
    (calculate_maintenance_calories 80).lookup "weight_lbs" =
      some (Val.num 176) ∧
    (calculate_maintenance_calories 80).lookup "maintenance_calories" =
      some (Val.num 2464) := by
  have h := maintenance_calories_spec 80
  refine ⟨?_, ?_⟩
  · rw [h.2.1]
    norm_num [round2, roundHalfEven]
  · rw [h.2.2]
    norm_num [round2, roundHalfEven]

/-- C7: `fitness_tips` lowercases its goal; `"loss"` gives the fixed four
loss tips, `"gain"` the fixed four gain tips, and anything else an error
dict whose message names the (lowercased) invalid goal. -/
theorem fitness_tips_goal_spec (g : String) :
    (strLower g = "loss" →
      fitness_tips g =
        [ ("status", Val.str "success"), ("goal", Val.str "loss"),
          ("tips", Val.strList loss_tips)] ∧ loss_tips.length = 4) ∧
    (strLower g = "gain" →
      fitness_tips g =
        [ ("status", Val.str "success"), ("goal", Val.str "gain"),
          ("tips", Val.strList gain_tips)] ∧ gain_tips.length = 4) ∧
    (¬ strLower g = "loss" → ¬ strLower g = "gain" →
      fitness_tips g =
        [ ("status", Val.str "error"),
          ("error_message", Val.str
            ("Goal '" ++ strLower g ++ "' is not recognized. Use 'loss' or 'gain'."))]) := by
  refine ⟨?_, ?_, ?_⟩
  · intro h
    exact ⟨by simp [fitness_tips, h], by decide⟩
  · intro h
    exact ⟨by simp [fitness_tips, h], by decide⟩
  · intro h1 h2
    simp [fitness_tips, h1, h2]

/-- C7 witness: goal "LOSS" returns the loss tips; goal "bulk" returns an
error naming "bulk". -/
theorem fitness_tips_goal_instance :
    fitness_tips "LOSS" =
      [ ("status", Val.str "success"), ("goal", Val.str "loss"),
        ("tips", Val.strList loss_tips)] ∧
    fitness_tips "bulk" =
      [ ("status", Val.str "error"),
        ("error_message", Val.str
          "Goal 'bulk' is not recognized. Use 'loss' or 'gain'.")] := by
  have h1 := (fitness_tips_goal_spec "LOSS").1 (by decide)
  have h2 := (fitness_tips_goal_spec "bulk").2.2 (by decide) (by decide)
  refine ⟨h1.1, ?_⟩
  rw [h2]
  have e : strLower "bulk" = "bulk" := by decide
  rw [e]
  decide

/-- C8 counterexample: the success result of `fitness_tips` carries no
`message` field, contrary to the claim that every success result does. -/
theorem fitness_tips_success_no_message_cex :
    (fitness_tips "loss").lookup "status" = some (Val.str "success") ∧
    (fitness_tips "loss").lookup "message" = none := by
  have e : strLower "loss" = "loss" := by decide
  constructor <;>
    simp +decide [fitness_tips, e, List.lookup, lookup_head, lookup_rest]

/-- C8 amended: every result of the six functions has status "success" or
"error"; every error result carries an `error_message` string; every
success result carries a `message` string except those of `fitness_tips`,
which carry `goal` and `tips` but no `message`. -/
theorem result_shape_spec (w h m c t u : ℚ) (g gm : String) :
    (status_ok (calculate_bmi w h) ∧ error_has_msg (calculate_bmi w h) ∧
      success_has_msg (calculate_bmi w h)) ∧
    (status_ok (fitness_tips g) ∧ error_has_msg (fitness_tips g) ∧
      ((fitness_tips g).lookup "status" = some (Val.str "success") →
        (fitness_tips g).lookup "message" = none)) ∧
    (status_ok (calculate_maintenance_calories m) ∧
      error_has_msg (calculate_maintenance_calories m) ∧
      success_has_msg (calculate_maintenance_calories m)) ∧
    (status_ok (calculate_macronutrients c gm) ∧
      error_has_msg (calculate_macronutrients c gm) ∧
      success_has_msg (calculate_macronutrients c gm)) ∧
    (status_ok (calculate_weight_loss_plan t) ∧
      error_has_msg (calculate_weight_loss_plan t) ∧
      success_has_msg (calculate_weight_loss_plan t)) ∧
    (status_ok (calculate_weight_gain_plan u) ∧
      error_has_msg (calculate_weight_gain_plan u) ∧
      success_has_msg (calculate_weight_gain_plan u)) := by
  refine ⟨?_, ?_, ?_, ?_, ?_, ?_⟩
  · rcases bmi_shape w h with ⟨e, he⟩ | ⟨q, cat, ms, he⟩ <;>
      simp +decide [status_ok, error_has_msg, success_has_msg, he,
        List.lookup, lookup_head, lookup_rest]
  · rcases fitness_tips_shape g with ⟨gl, tips, he⟩ | ⟨e, he⟩ <;>
      simp +decide [status_ok, error_has_msg, he,
        List.lookup, lookup_head, lookup_rest]
  · simp +decide [status_ok, error_has_msg, success_has_msg,
      calculate_maintenance_calories, List.lookup, lookup_head, lookup_rest]
  · rcases macronutrients_shape c gm with ⟨e, he⟩ | ⟨gl, i, d, ms, he⟩ <;>
      simp +decide [status_ok, error_has_msg, success_has_msg, he,
        List.lookup, lookup_head, lookup_rest]
  · rcases weight_loss_plan_shape t with ⟨e, he⟩ | ⟨q, d, ms, r, he⟩ <;>
      simp +decide [status_ok, error_has_msg, success_has_msg, he,
        List.lookup, lookup_head, lookup_rest]
  · rcases weight_gain_plan_shape u with ⟨e, he⟩ | ⟨q, d, ms, r, he⟩ <;>
      simp +decide [status_ok, error_has_msg, success_has_msg, he,
        List.lookup, lookup_head, lookup_rest]

/-- C9: on every (typed) input each of the six functions returns a result
dict with a success or error status; the one arithmetic failure, division
by zero at height 0 in `calculate_bmi`, becomes an error result rather
than propagating. -/
theorem tools_total_spec (w h m c t u : ℚ) (g gm : String) :
    status_ok (calculate_bmi w h) ∧ status_ok (fitness_tips g) ∧
    status_ok (calculate_maintenance_calories m) ∧
    status_ok (calculate_macronutrients c gm) ∧
    status_ok (calculate_weight_loss_plan t) ∧
    status_ok (calculate_weight_gain_plan u) ∧
    (calculate_bmi w 0).lookup "status" = some (Val.str "error") ∧
    (calculate_bmi w 0).lookup "error_message" =
      some (Val.str "float division by zero") := by
  have hz : (((0 : ℚ) / 100) ^ 2) = 0 := by norm_num
  refine ⟨?_, ?_, ?_, ?_, ?_, ?_, ?_, ?_⟩
  · rcases bmi_shape w h with ⟨e, he⟩ | ⟨q, cat, ms, he⟩ <;>
      simp +decide [status_ok, he, lookup_head]
  · rcases fitness_tips_shape g with ⟨gl, tips, he⟩ | ⟨e, he⟩ <;>
      simp +decide [status_ok, he, lookup_head]
  · simp +decide [status_ok, calculate_maintenance_calories, lookup_head]
  · rcases macronutrients_shape c gm with ⟨e, he⟩ | ⟨gl, i, d, ms, he⟩ <;>
      simp +decide [status_ok, he, lookup_head]
  · rcases weight_loss_plan_shape t with ⟨e, he⟩ | ⟨q, d, ms, r, he⟩ <;>
      simp +decide [status_ok, he, lookup_head]
  · rcases weight_gain_plan_shape u with ⟨e, he⟩ | ⟨q, d, ms, r, he⟩ <;>
      simp +decide [status_ok, he, lookup_head]
  · simp only [calculate_bmi, if_pos hz]
    simp [lookup_head]
  · simp only [calculate_bmi, if_pos hz]
    simp +decide [lookup_head, lookup_rest]

/-- C10: `calculate_macronutrients` never checks that calories are
positive: any non-positive calorie total with a valid goal still yields a
success result whose gram fields follow the fixed ratios. -/
theorem macronutrients_no_positivity_check (c : ℚ) (g : String)
    (hc : c ≤ 0)
    (hg : strLower g = "loss" ∨ strLower g = "gain" ∨ strLower g = "maintain") :
    (calculate_macronutrients c g).lookup "status" = some (Val.str "success") ∧
    (calculate_macronutrients c g).lookup "macronutrients" = some (Val.numDict
      [ ("protein_grams", round2 (c * 0.35 / 4)),
        ("fat_grams", round2 (c * 0.25 / 9)),
        ("carbs_grams", round2 (c * 0.40 / 4))]) :=
  macronutrients_valid_success c g hg

/-- C10 witness: calories -100 with goal "loss" succeeds with negative
gram values -8.75, -2.78 and -10.0. -/
theorem macronutrients_no_positivity_witness :
    ((-100 : ℚ) ≤ 0) ∧
    (calculate_macronutrients (-100) "loss").lookup "status" =
      some (Val.str "success") ∧
    (calculate_macronutrients (-100) "loss").lookup "macronutrients" =
      some (Val.numDict
        [ ("protein_grams", -8.75), ("fat_grams", -2.78),
          ("carbs_grams", -10)]) := by
  have h := macronutrients_no_positivity_check (-100) "loss"
    (by norm_num) (Or.inl (by decide))
  refine ⟨by norm_num, h.1, ?_⟩
  rw [h.2]
  norm_num [round2, roundHalfEven]
